import Mathlib

/-!
Formal model of the adsensei image pipeline
(`python_services/services/platform_optimizer.py`,
`python_services/services/ad_generator.py`,
`python_services/services/evaluator.py`, and
`python_services/models/schemas.py`).

Python floats are modelled by exact rationals, Python ints by `Nat`/`Int`,
and calls into external libraries (PIL font metrics, cv2 contour extraction,
numpy standard deviation, the OpenAI client) by explicit parameters of the
embedded functions.  `int(x)` on the nonnegative values arising here is the
floor, and Python `//` floor division on possibly negative integers is
`Int.fdiv`.
-/

/-- Enumeration of supported platforms, from `models/schemas.py` (`class Platform`). -/
inductive Platform
  | instagram
  | instagram_story
  | tiktok
  | facebook
  | pinterest
deriving DecidableEq

/-- String value of a platform member (`platform.value` in the Python enum). -/
def Platform.value : Platform → String
  | .instagram => "instagram"
  | .instagram_story => "instagram_story"
  | .tiktok => "tiktok"
  | .facebook => "facebook"
  | .pinterest => "pinterest"

/-- Per-platform constraint record.  Fields are the entries of the
`PLATFORM_SPECS` table in `models/schemas.py` that the embedded operations
consult (the purely descriptive string entries are not consumed by any
modelled operation). -/
structure PlatformSpec where
  dimensions : Nat × Nat
  max_file_size_mb : Nat
  compression : Nat
  saturation_boost : Option ℚ
  brightness_boost : Option ℚ

/-- Static platform table from `models/schemas.py`; the private copy in
`PlatformOptimizer.__init__` carries the same values. -/
def PLATFORM_SPECS : Platform → PlatformSpec
  | .instagram => ⟨(1080, 1080), 30, 85, none, none⟩
  | .instagram_story => ⟨(1080, 1920), 30, 85, none, none⟩
  | .tiktok => ⟨(1080, 1920), 10, 80, some (6/5), none⟩
  | .facebook => ⟨(1200, 630), 8, 85, none, none⟩
  | .pinterest => ⟨(1000, 1500), 20, 90, none, some (11/10)⟩

/-- Python `int(x)` for the nonnegative float values arising in the pipeline:
truncation toward zero, which on nonnegative arguments is the floor. -/
def pyInt (q : ℚ) : ℕ := (⌊q⌋).toNat

/-- Geometry produced by `AdImageGenerator.resize_and_crop`: the uniformly
scaled size and the centered crop box handed to PIL `Image.crop`. -/
structure CropResult where
  new_width : Nat
  new_height : Nat
  left : Int
  top : Int
  right : Int
  bottom : Int

/-- Embedding of `AdImageGenerator.resize_and_crop` (ad_generator.py lines
74-95): scale by the larger of the two target/source ratios, then crop a
centered `target_width × target_height` box out of the scaled image. -/
def resize_and_crop (img_width img_height target_width target_height : Nat) : CropResult :=
  let width_ratio : ℚ := (target_width : ℚ) / (img_width : ℚ)
  let height_ratio : ℚ := (target_height : ℚ) / (img_height : ℚ)
  let ratio := max width_ratio height_ratio
  let new_width := pyInt ((img_width : ℚ) * ratio)
  let new_height := pyInt ((img_height : ℚ) * ratio)
  let left := ((new_width : Int) - (target_width : Int)).fdiv 2
  let top := ((new_height : Int) - (target_height : Int)).fdiv 2
  ⟨new_width, new_height, left, top, left + target_width, top + target_height⟩

/-- Width of the image returned by PIL `Image.crop` on the computed box
(always exactly the box width). -/
def CropResult.out_width (r : CropResult) : Int := r.right - r.left

/-- Height of the image returned by PIL `Image.crop` on the computed box. -/
def CropResult.out_height (r : CropResult) : Int := r.bottom - r.top

/-- Geometry produced by `PlatformOptimizer.resize_for_platform`
(platform_optimizer.py lines 56-84): the scaled size and the offsets at
which it is pasted onto a fresh white canvas of the target size. -/
structure PasteResult where
  canvas_width : Nat
  canvas_height : Nat
  new_width : Nat
  new_height : Nat
  x_offset : Int
  y_offset : Int

/-- Embedding of `PlatformOptimizer.resize_for_platform`: scale by the
smaller of the two target/source ratios, create a white canvas of the exact
platform dimensions and paste the scaled image centered onto it. -/
def resize_for_platform (img_width img_height : Nat) (platform : Platform) : PasteResult :=
  let spec := PLATFORM_SPECS platform
  let target_width := spec.dimensions.1
  let target_height := spec.dimensions.2
  let width_ratio : ℚ := (target_width : ℚ) / (img_width : ℚ)
  let height_ratio : ℚ := (target_height : ℚ) / (img_height : ℚ)
  let ratio := min width_ratio height_ratio
  let new_width := pyInt ((img_width : ℚ) * ratio)
  let new_height := pyInt ((img_height : ℚ) * ratio)
  ⟨target_width, target_height,
   new_width, new_height,
   ((target_width : Int) - (new_width : Int)).fdiv 2,
   ((target_height : Int) - (new_height : Int)).fdiv 2⟩

/-- Number of canvas pixels of a `resize_for_platform` result that the pasted
image does not cover, i.e. the white letterbox pixels that remain visible. -/
def PasteResult.padding_area (r : PasteResult) : Nat :=
  r.canvas_width * r.canvas_height - r.new_width * r.new_height

theorem le_pyInt_of_le {n : ℕ} {q : ℚ} (h : (n : ℚ) ≤ q) : n ≤ pyInt q := by
  have hfloor : (n : ℤ) ≤ ⌊q⌋ := Int.le_floor.mpr (by exact_mod_cast h)
  have h0 : (0 : ℤ) ≤ ⌊q⌋ := le_trans (by exact_mod_cast Nat.zero_le n) hfloor
  exact (Int.le_toNat h0).mpr hfloor

theorem pyInt_le_of_le {n : ℕ} {q : ℚ} (h : q ≤ (n : ℚ)) : pyInt q ≤ n := by
  have hfloor : ⌊q⌋ ≤ (n : ℤ) := by
    calc ⌊q⌋ ≤ ⌊(n : ℚ)⌋ := Int.floor_le_floor h
    _ = (n : ℤ) := Int.floor_natCast n
  exact Int.toNat_le.mpr hfloor

theorem resize_and_crop_cover {w h tw th : Nat} (hw : 1 ≤ w) (hh : 1 ≤ h) :
    tw ≤ (resize_and_crop w h tw th).new_width ∧
    th ≤ (resize_and_crop w h tw th).new_height := by
  have hw0 : (0 : ℚ) < (w : ℚ) := by exact_mod_cast hw
  have hh0 : (0 : ℚ) < (h : ℚ) := by exact_mod_cast hh
  constructor
  · apply le_pyInt_of_le
    have h1 : (w : ℚ) * ((tw : ℚ) / (w : ℚ)) = (tw : ℚ) := by
      field_simp
    calc (tw : ℚ) = (w : ℚ) * ((tw : ℚ) / (w : ℚ)) := h1.symm
    _ ≤ (w : ℚ) * max ((tw : ℚ) / (w : ℚ)) ((th : ℚ) / (h : ℚ)) := by
        apply mul_le_mul_of_nonneg_left (le_max_left _ _) (le_of_lt hw0)
  · apply le_pyInt_of_le
    have h1 : (h : ℚ) * ((th : ℚ) / (h : ℚ)) = (th : ℚ) := by
      field_simp
    calc (th : ℚ) = (h : ℚ) * ((th : ℚ) / (h : ℚ)) := h1.symm
    _ ≤ (h : ℚ) * max ((tw : ℚ) / (w : ℚ)) ((th : ℚ) / (h : ℚ)) := by
        apply mul_le_mul_of_nonneg_left (le_max_right _ _) (le_of_lt hh0)

theorem resize_for_platform_fits {w h : Nat} (p : Platform) (hw : 1 ≤ w) (hh : 1 ≤ h) :
    (resize_for_platform w h p).new_width ≤ (resize_for_platform w h p).canvas_width ∧
    (resize_for_platform w h p).new_height ≤ (resize_for_platform w h p).canvas_height := by
  have hw0 : (0 : ℚ) < (w : ℚ) := by exact_mod_cast hw
  have hh0 : (0 : ℚ) < (h : ℚ) := by exact_mod_cast hh
  constructor
  · apply pyInt_le_of_le
    have h1 : (w : ℚ) * (((PLATFORM_SPECS p).dimensions.1 : ℚ) / (w : ℚ))
        = ((PLATFORM_SPECS p).dimensions.1 : ℚ) := by field_simp
    calc (w : ℚ) * min (((PLATFORM_SPECS p).dimensions.1 : ℚ) / (w : ℚ))
          (((PLATFORM_SPECS p).dimensions.2 : ℚ) / (h : ℚ))
        ≤ (w : ℚ) * (((PLATFORM_SPECS p).dimensions.1 : ℚ) / (w : ℚ)) := by
          apply mul_le_mul_of_nonneg_left (min_le_left _ _) (le_of_lt hw0)
    _ = ((PLATFORM_SPECS p).dimensions.1 : ℚ) := h1
  · apply pyInt_le_of_le
    have h1 : (h : ℚ) * (((PLATFORM_SPECS p).dimensions.2 : ℚ) / (h : ℚ))
        = ((PLATFORM_SPECS p).dimensions.2 : ℚ) := by field_simp
    calc (h : ℚ) * min (((PLATFORM_SPECS p).dimensions.1 : ℚ) / (w : ℚ))
          (((PLATFORM_SPECS p).dimensions.2 : ℚ) / (h : ℚ))
        ≤ (h : ℚ) * (((PLATFORM_SPECS p).dimensions.2 : ℚ) / (h : ℚ)) := by
          apply mul_le_mul_of_nonneg_left (min_le_right _ _) (le_of_lt hh0)
    _ = ((PLATFORM_SPECS p).dimensions.2 : ℚ) := h1

/-- C2: for every supported platform and every source image of dimensions at
least 1×1, both resize operations produce an image of exactly the platform's
target dimensions: `resize_for_platform` returns its freshly created canvas,
and the `resize_and_crop` crop box has exactly the target extent. -/
theorem resize_exact_dimensions (p : Platform) (w h : Nat) (hw : 1 ≤ w) (hh : 1 ≤ h) :
    (resize_for_platform w h p).canvas_width = (PLATFORM_SPECS p).dimensions.1 ∧
    (resize_for_platform w h p).canvas_height = (PLATFORM_SPECS p).dimensions.2 ∧
    (resize_and_crop w h (PLATFORM_SPECS p).dimensions.1
      (PLATFORM_SPECS p).dimensions.2).out_width = ((PLATFORM_SPECS p).dimensions.1 : Int) ∧
    (resize_and_crop w h (PLATFORM_SPECS p).dimensions.1
      (PLATFORM_SPECS p).dimensions.2).out_height = ((PLATFORM_SPECS p).dimensions.2 : Int) := by
  refine ⟨rfl, rfl, ?_, ?_⟩
  · simp only [resize_and_crop, CropResult.out_width]
    omega
  · simp only [resize_and_crop, CropResult.out_height]
    omega

theorem one_le_2000 : 1 ≤ 2000 := by decide

theorem one_le_1000 : 1 ≤ 1000 := by decide

/-- Witness for C2 at the concrete input 2000×1000 on facebook. -/
theorem resize_exact_dimensions_witness :
    1 ≤ 2000 ∧ 1 ≤ 1000 ∧
    ((resize_for_platform 2000 1000 Platform.facebook).canvas_width
        = (PLATFORM_SPECS Platform.facebook).dimensions.1 ∧
      (resize_for_platform 2000 1000 Platform.facebook).canvas_height
        = (PLATFORM_SPECS Platform.facebook).dimensions.2 ∧
      (resize_and_crop 2000 1000 (PLATFORM_SPECS Platform.facebook).dimensions.1
        (PLATFORM_SPECS Platform.facebook).dimensions.2).out_width
        = ((PLATFORM_SPECS Platform.facebook).dimensions.1 : Int) ∧
      (resize_and_crop 2000 1000 (PLATFORM_SPECS Platform.facebook).dimensions.1
        (PLATFORM_SPECS Platform.facebook).dimensions.2).out_height
        = ((PLATFORM_SPECS Platform.facebook).dimensions.2 : Int)) :=
  ⟨one_le_2000, one_le_1000,
    resize_exact_dimensions Platform.facebook 2000 1000 one_le_2000 one_le_1000⟩

/-- C1 counterexample: `PlatformOptimizer.resize_for_platform` on a 1000×2000
source for instagram (target 1080×1080) scales by the smaller ratio 0.54,
pastes a 540×1080 image onto the white 1080×1080 canvas and leaves 583200
white letterbox pixels, contradicting the claim that the platform resize
operation uses the larger ratio and introduces no padding pixels. -/
theorem resize_for_platform_letterboxes :
    (resize_for_platform 1000 2000 Platform.instagram).new_width = 540 ∧
    (resize_for_platform 1000 2000 Platform.instagram).new_height = 1080 ∧
    (resize_for_platform 1000 2000 Platform.instagram).padding_area = 583200 ∧
    0 < (resize_for_platform 1000 2000 Platform.instagram).padding_area := by
  have hmin : min ((1080 : ℚ) / (1000 : ℚ)) ((1080 : ℚ) / (2000 : ℚ)) = 27 / 50 := by
    rw [min_eq_right (by norm_num)]
    norm_num
  have hnw : (resize_for_platform 1000 2000 Platform.instagram).new_width = 540 := by
    unfold resize_for_platform PLATFORM_SPECS pyInt
    norm_num [hmin]
    decide
  have hnh : (resize_for_platform 1000 2000 Platform.instagram).new_height = 1080 := by
    unfold resize_for_platform PLATFORM_SPECS pyInt
    norm_num [hmin]
    decide
  have hcw : (resize_for_platform 1000 2000 Platform.instagram).canvas_width = 1080 := rfl
  have hch : (resize_for_platform 1000 2000 Platform.instagram).canvas_height = 1080 := rfl
  have hpad : (resize_for_platform 1000 2000 Platform.instagram).padding_area = 583200 := by
    rw [PasteResult.padding_area, hnw, hnh, hcw, hch]
  exact ⟨hnw, hnh, hpad, by rw [hpad]; decide⟩

/-- C1 amended: `AdImageGenerator.resize_and_crop` does scale by the larger
ratio and center-crop with no padding (its crop box always lies inside the
scaled image), while `PlatformOptimizer.resize_for_platform` scales by the
smaller ratio so the scaled image fits inside the white canvas (letterbox,
not cover). -/
theorem cover_resize_spec (w h tw th : Nat) (hw : 1 ≤ w) (hh : 1 ≤ h) :
    (tw ≤ (resize_and_crop w h tw th).new_width ∧
      th ≤ (resize_and_crop w h tw th).new_height ∧
      0 ≤ (resize_and_crop w h tw th).left ∧
      (resize_and_crop w h tw th).right ≤ ((resize_and_crop w h tw th).new_width : Int) ∧
      0 ≤ (resize_and_crop w h tw th).top ∧
      (resize_and_crop w h tw th).bottom ≤ ((resize_and_crop w h tw th).new_height : Int)) ∧
    ∀ p : Platform,
      (resize_for_platform w h p).new_width ≤ (resize_for_platform w h p).canvas_width ∧
      (resize_for_platform w h p).new_height ≤ (resize_for_platform w h p).canvas_height := by
  obtain ⟨hcw, hch⟩ := @resize_and_crop_cover w h tw th hw hh
  have hleft : (resize_and_crop w h tw th).left
      = (((resize_and_crop w h tw th).new_width : Int) - (tw : Int)).fdiv 2 := rfl
  have htop : (resize_and_crop w h tw th).top
      = (((resize_and_crop w h tw th).new_height : Int) - (th : Int)).fdiv 2 := rfl
  have hright : (resize_and_crop w h tw th).right
      = (resize_and_crop w h tw th).left + (tw : Int) := rfl
  have hbottom : (resize_and_crop w h tw th).bottom
      = (resize_and_crop w h tw th).top + (th : Int) := rfl
  have h1 : (tw : Int) ≤ ((resize_and_crop w h tw th).new_width : Int) := by exact_mod_cast hcw
  have h2 : (th : Int) ≤ ((resize_and_crop w h tw th).new_height : Int) := by exact_mod_cast hch
  have e1 := Int.fdiv_eq_ediv (((resize_and_crop w h tw th).new_width : Int) - (tw : Int))
    (b := 2) (by omega)
  have e2 := Int.fdiv_eq_ediv (((resize_and_crop w h tw th).new_height : Int) - (th : Int))
    (b := 2) (by omega)
  refine ⟨⟨hcw, hch, ?_, ?_, ?_, ?_⟩, fun p => resize_for_platform_fits p hw hh⟩
  · rw [hleft, e1]; omega
  · rw [hright, hleft, e1]; omega
  · rw [htop, e2]; omega
  · rw [hbottom, htop, e2]; omega

/-- Witness for the amended C1 at the concrete input 2000×1000. -/
theorem cover_resize_spec_witness :
    1 ≤ 2000 ∧ 1 ≤ 1000 ∧
    (1080 ≤ (resize_and_crop 2000 1000 1080 1080).new_width ∧
      1080 ≤ (resize_and_crop 2000 1000 1080 1080).new_height ∧
      0 ≤ (resize_and_crop 2000 1000 1080 1080).left ∧
      (resize_and_crop 2000 1000 1080 1080).right
        ≤ ((resize_and_crop 2000 1000 1080 1080).new_width : Int) ∧
      0 ≤ (resize_and_crop 2000 1000 1080 1080).top ∧
      (resize_and_crop 2000 1000 1080 1080).bottom
        ≤ ((resize_and_crop 2000 1000 1080 1080).new_height : Int)) ∧
    ∀ p : Platform,
      (resize_for_platform 2000 1000 p).new_width
        ≤ (resize_for_platform 2000 1000 p).canvas_width ∧
      (resize_for_platform 2000 1000 p).new_height
        ≤ (resize_for_platform 2000 1000 p).canvas_height :=
  ⟨one_le_2000, one_le_1000,
    (cover_resize_spec 2000 1000 1080 1080 one_le_2000 one_le_1000).1,
    (cover_resize_spec 2000 1000 1080 1080 one_le_2000 one_le_1000).2⟩

/-- Quality-descent loop of `PlatformOptimizer.optimize_file_size`
(platform_optimizer.py lines 115-126) and of the identical loop in
`AdImageGenerator.save_optimized_image`: while the quality is above 10 the
image is saved at the current quality and the loop exits at the first saved
byte size within the limit, otherwise the quality drops by 10.  `size q` is
the byte size of the deterministic encoding at quality `q`.  The `fuel`
argument only bounds the number of passes; the wrapper supplies `fuel = q`,
which is never exhausted because every pass lowers the quality by 10. -/
def optimize_file_size_loop (size : Nat → Nat) (max_size_bytes : Nat) : Nat → Nat → Nat
  | 0, quality => quality
  | fuel + 1, quality =>
    if 10 < quality then
      if size quality ≤ max_size_bytes then quality
      else optimize_file_size_loop size max_size_bytes fuel (quality - 10)
    else quality

/-- Final quality computed by the descent loop started at `compression`. -/
def optimize_file_size_quality (size : Nat → Nat) (max_size_bytes compression : Nat) : Nat :=
  optimize_file_size_loop size max_size_bytes compression compression

/-- Final quality reported by `PlatformOptimizer.optimize_file_size` for a
platform, with the starting quality and byte ceiling drawn from the
platform table exactly as in the source. -/
def optimize_file_size (size : Nat → Nat) (platform : Platform) : Nat :=
  optimize_file_size_quality size
    ((PLATFORM_SPECS platform).max_file_size_mb * 1024 * 1024)
    (PLATFORM_SPECS platform).compression

theorem optimize_loop_le (size : Nat → Nat) (m : Nat) :
    ∀ fuel q, optimize_file_size_loop size m fuel q ≤ q := by
  intro fuel
  induction fuel with
  | zero => intro q; exact le_refl q
  | succ fuel ih =>
    intro q
    by_cases h10 : 10 < q
    · by_cases hsz : size q ≤ m
      · simp [optimize_file_size_loop, h10, hsz]
      · have := ih (q - 10)
        simp only [optimize_file_size_loop, if_pos h10, if_neg hsz]
        omega
    · simp [optimize_file_size_loop, h10]

theorem optimize_loop_spec (size : Nat → Nat) (m : Nat) :
    ∀ fuel q c, q ≤ 10 * fuel → q ≤ c → (c - q) % 10 = 0 →
    (∀ x, q < x → x ≤ c → (c - x) % 10 = 0 → m < size x ∧ 10 < x) →
    (optimize_file_size_loop size m fuel q ≤ q ∧
     (c - optimize_file_size_loop size m fuel q) % 10 = 0 ∧
     (size (optimize_file_size_loop size m fuel q) ≤ m ∨
       optimize_file_size_loop size m fuel q ≤ 10) ∧
     (∀ x, optimize_file_size_loop size m fuel q < x → x ≤ c →
       (c - x) % 10 = 0 → m < size x ∧ 10 < x) ∧
     (0 < q → 0 < optimize_file_size_loop size m fuel q)) := by
  intro fuel
  induction fuel with
  | zero =>
    intro q c hfuel hqc hmod hinv
    have hq0 : q = 0 := by omega
    subst hq0
    simp only [optimize_file_size_loop]
    exact ⟨le_refl 0, hmod, Or.inr (by omega), hinv, fun hcon => hcon⟩
  | succ fuel ih =>
    intro q c hfuel hqc hmod hinv
    by_cases h10 : 10 < q
    · by_cases hsz : size q ≤ m
      · simp only [optimize_file_size_loop, if_pos h10, if_pos hsz]
        exact ⟨le_refl q, hmod, Or.inl hsz, hinv, fun _ => by omega⟩
      · simp only [optimize_file_size_loop, if_pos h10, if_neg hsz]
        have hinv2 : ∀ x, q - 10 < x → x ≤ c → (c - x) % 10 = 0 → m < size x ∧ 10 < x := by
          intro x hx1 hx2 hx3
          rcases lt_trichotomy x q with hlt | heq | hgt
          · exfalso; omega
          · subst heq; exact ⟨by omega, h10⟩
          · exact hinv x hgt hx2 hx3
        have := ih (q - 10) c (by omega) (by omega) (by omega) hinv2
        refine ⟨by omega, this.2.1, this.2.2.1, this.2.2.2.1, fun _ => this.2.2.2.2 (by omega)⟩
    · simp only [optimize_file_size_loop, if_neg h10]
      exact ⟨le_refl q, hmod, Or.inr (by omega), hinv, fun hq => hq⟩

/-- C4 amended: the quality ladder of `optimize_file_size` starts at the
platform's configured compression value and descends in steps of exactly 10;
the returned quality is the first ladder value whose encoding fits the byte
ceiling, unless the loop runs the quality to 10 or below, in which case the
result can be below 10 (it is positive, but e.g. 5 for the platforms whose
compression is 85): every ladder value above the result exceeded the ceiling
while still above 10. -/
theorem optimize_file_size_quality_spec (size : Nat → Nat) (p : Platform) :
    optimize_file_size size p ≤ (PLATFORM_SPECS p).compression ∧
    ((PLATFORM_SPECS p).compression - optimize_file_size size p) % 10 = 0 ∧
    (size (optimize_file_size size p) ≤ (PLATFORM_SPECS p).max_file_size_mb * 1024 * 1024 ∨
      optimize_file_size size p ≤ 10) ∧
    (∀ x, optimize_file_size size p < x → x ≤ (PLATFORM_SPECS p).compression →
      ((PLATFORM_SPECS p).compression - x) % 10 = 0 →
      (PLATFORM_SPECS p).max_file_size_mb * 1024 * 1024 < size x ∧ 10 < x) ∧
    0 < optimize_file_size size p := by
  have hc : 0 < (PLATFORM_SPECS p).compression := by cases p <;> decide
  have h := optimize_loop_spec size ((PLATFORM_SPECS p).max_file_size_mb * 1024 * 1024)
    (PLATFORM_SPECS p).compression (PLATFORM_SPECS p).compression (PLATFORM_SPECS p).compression
    (by omega) (le_refl _) (by omega) (fun x hx1 hx2 _ => absurd hx2 (by omega))
  exact ⟨h.1, h.2.1, h.2.2.1, h.2.2.2.1, h.2.2.2.2 hc⟩

/-- C4 counterexample: with a deterministic encoder whose output is always
one byte over instagram's 30 MiB ceiling, the loop started at compression 85
walks 85, 75, ..., 15, then decrements to 5 and exits, so the returned
final quality is 5, strictly below the hard floor of 10 asserted by the
claim. -/
theorem optimize_quality_below_floor :
    optimize_file_size (fun _ => 31457281) Platform.instagram = 5 ∧
    optimize_file_size (fun _ => 31457281) Platform.instagram < 10 := by
  constructor <;> decide

theorem optimize_loop_mono (size : Nat → Nat) {m1 m2 : Nat} (hm : m1 ≤ m2) :
    ∀ fuel q, optimize_file_size_loop size m1 fuel q ≤ optimize_file_size_loop size m2 fuel q := by
  intro fuel
  induction fuel with
  | zero => intro q; exact le_refl q
  | succ fuel ih =>
    intro q
    by_cases h10 : 10 < q
    · by_cases h1 : size q ≤ m1
      · have h2 : size q ≤ m2 := le_trans h1 hm
        simp [optimize_file_size_loop, h10, h1, h2]
      · by_cases h2 : size q ≤ m2
        · simp only [optimize_file_size_loop, if_pos h10, if_neg h1, if_pos h2]
          calc optimize_file_size_loop size m1 fuel (q - 10) ≤ q - 10 :=
              optimize_loop_le size m1 fuel (q - 10)
          _ ≤ q := by omega
        · simp only [optimize_file_size_loop, if_pos h10, if_neg h1, if_neg h2]
          exact ih (q - 10)
    · simp [optimize_file_size_loop, h10]

/-- C7: the compression loop is monotone in the byte ceiling: a larger
ceiling never yields a smaller final quality, for the same encoder and the
same starting quality. -/
theorem compress_to_limit_monotone (size : Nat → Nat) (q m1 m2 : Nat) (hm : m1 ≤ m2) :
    optimize_file_size_quality size m1 q ≤ optimize_file_size_quality size m2 q :=
  optimize_loop_mono size hm q q

theorem compress_mono_ceilings : 1000000 ≤ 5000000 := by decide

/-- Witness for C7 at a concrete encoder and ceilings. -/
theorem compress_to_limit_monotone_witness :
    1000000 ≤ 5000000 ∧
    optimize_file_size_quality (fun q => q * 100000) 1000000 85 ≤
      optimize_file_size_quality (fun q => q * 100000) 5000000 85 :=
  ⟨compress_mono_ceilings,
    compress_to_limit_monotone (fun q => q * 100000) 85 1000000 5000000 compress_mono_ceilings⟩

/-- In-memory RGB raster as PIL exposes it to `analyze_color_distribution`:
dimensions plus the flattened pixel list. -/
structure RGBImage where
  width : Nat
  height : Nat
  pixels : List (Nat × Nat × Nat)

/-- Per-channel means, `ImageStat.Stat(image).mean` in the source. -/
def channel_means (pixels : List (Nat × Nat × Nat)) : List ℚ :=
  [((pixels.map (fun px => (px.1 : ℚ))).sum) / (pixels.length : ℚ),
   ((pixels.map (fun px => (px.2.1 : ℚ))).sum) / (pixels.length : ℚ),
   ((pixels.map (fun px => (px.2.2 : ℚ))).sum) / (pixels.length : ℚ)]

/-- Population variance `np.var` of a list of rationals. -/
def np_var (l : List ℚ) : ℚ :=
  let m := l.sum / (l.length : ℚ)
  ((l.map (fun x => (x - m) ^ 2)).sum) / (l.length : ℚ)

/-- Outputs of `AdEvaluator.analyze_color_distribution` (evaluator.py lines
15-49) that are consumed downstream; the dominant-color clustering calls out
to sklearn and its result feeds only the detailed report, and `contrast`
there is a numpy standard deviation, so neither is modelled. -/
structure ColorAnalysis where
  color_harmony : ℚ
  brightness : ℚ
deriving DecidableEq

/-- Embedding of `AdEvaluator.analyze_color_distribution`: the harmony score
is `max(0, 1 - variance(channel means)/10000)` and brightness is the mean of
the channel means. -/
def analyze_color_distribution (img : RGBImage) : ColorAnalysis :=
  let color_variance := np_var (channel_means img.pixels)
  ⟨max 0 (1 - color_variance / 10000), (channel_means img.pixels).sum / 3⟩

/-- Grayscale raster as cv2 exposes it to `analyze_composition`, row-major. -/
structure GrayImage where
  rows : List (List Nat)

/-- Width of the grayscale raster (`gray.shape[1]`). -/
def GrayImage.width (g : GrayImage) : Nat := (g.rows.headD []).length

/-- Height of the grayscale raster (`gray.shape[0]`). -/
def GrayImage.height (g : GrayImage) : Nat := g.rows.length

/-- Raw image moment m00 of `cv2.moments`: total intensity. -/
def moment00 (g : GrayImage) : Nat := (g.rows.map List.sum).sum

/-- Raw image moment m10 of `cv2.moments`: intensity weighted by column. -/
def moment10 (g : GrayImage) : Nat :=
  (g.rows.map (fun row => (List.zipWith (fun i v => i * v) (List.range row.length) row).sum)).sum

/-- Raw image moment m01 of `cv2.moments`: intensity weighted by row. -/
def moment01 (g : GrayImage) : Nat :=
  (List.zipWith (fun j row => j * row.sum) (List.range g.rows.length) g.rows).sum

/-- Outputs of `AdEvaluator.analyze_composition` (evaluator.py lines 51-91). -/
structure CompositionAnalysis where
  edge_density : ℚ
  balance_score : ℚ
  complexity : ℚ
  rule_of_thirds_score : ℚ
deriving DecidableEq

/-- Embedding of `AdEvaluator.analyze_composition`.  The two quantities the
source obtains from cv2/numpy primitives with no exact rational meaning are
taken as parameters: `edge_count` is the number of pixels `cv2.Canny` marks
as edges, and `thirds_activity` is the numpy mean of the standard deviations
of the four rule-of-thirds strips.  The centroid and balance computation is
modelled exactly; `int()` of the nonnegative float centroid coordinates is
Nat division of the moments. -/
def analyze_composition (g : GrayImage) (edge_count : Nat) (thirds_activity : ℚ) :
    CompositionAnalysis :=
  let edge_density : ℚ := (edge_count : ℚ) / ((g.width * g.height : Nat) : ℚ)
  let balance_score : ℚ :=
    if moment00 g ≠ 0 then
      let cx := moment10 g / moment00 g
      let cy := moment01 g / moment00 g
      let center_x := g.width / 2
      let center_y := g.height / 2
      1 - ((((cx : Int) - (center_x : Int)).natAbs + ((cy : Int) - (center_y : Int)).natAbs : Nat) : ℚ)
        / ((center_x + center_y : Nat) : ℚ)
    else 1/2
  ⟨edge_density, max 0 (min 1 balance_score), min 1 (edge_density * 10),
   min 1 (thirds_activity / 50)⟩

/-- Candidate text region of `analyze_text_readability`: `area` is
`cv2.contourArea(contour)`, `size` the pixel count of the grayscale crop of
its bounding rectangle, and `contrast` the numpy standard deviation of that
crop (a nonnegative quantity supplied by the numerics library). -/
structure Contour where
  area : ℚ
  size : Nat
  contrast : ℚ
deriving DecidableEq

/-- Contrast-ratio block of `AdEvaluator.analyze_text_readability`
(evaluator.py lines 105-124): regions of area above 1000 are kept, the
contrast proxies of those with nonempty crops are averaged (defaulting to 50
when that list is empty), normalized by 100 and capped at 1; when no region
survives the area filter the ratio defaults to 0.7. -/
def contrast_ratio_of (contours : List Contour) : ℚ :=
  let text_areas := contours.filter (fun c => 1000 < c.area)
  if text_areas.length ≠ 0 then
    let contrast_scores := (text_areas.filter (fun c => 0 < c.size)).map Contour.contrast
    let avg_contrast : ℚ :=
      if contrast_scores.length ≠ 0 then contrast_scores.sum / (contrast_scores.length : ℚ)
      else 50
    min 1 (avg_contrast / 100)
  else (7 : ℚ) / 10

/-- Result of `AdEvaluator.analyze_text_readability`; the empty-text branch
of the source returns a dict without the `text_length_appropriate` key,
hence the optional field. -/
structure TextAnalysis where
  readability_score : ℚ
  contrast_ratio : ℚ
  text_length_appropriate : Option Bool
deriving DecidableEq

/-- Embedding of `AdEvaluator.analyze_text_readability` (evaluator.py lines
93-133). -/
def analyze_text_readability (text_content : String) (contours : List Contour) : TextAnalysis :=
  if text_content.length = 0 then ⟨1, 1, none⟩
  else
    let contrast_ratio := contrast_ratio_of contours
    let text_length_score := max 0 (1 - (text_content.length : ℚ) / 200)
    ⟨(contrast_ratio + text_length_score) / 2, contrast_ratio,
     some (decide (text_content.length ≤ 50))⟩

/-- Embedding of `AdEvaluator.platform_optimization_score` (evaluator.py
lines 135-160); the private `optimal_dimensions` table there carries the
same dimensions as the platform registry. -/
def platform_optimization_score (width height : Nat) (platform : Platform) : ℚ :=
  let target := (PLATFORM_SPECS platform).dimensions
  let width_ratio : ℚ := ((min width target.1 : Nat) : ℚ) / ((max width target.1 : Nat) : ℚ)
  let height_ratio : ℚ := ((min height target.2 : Nat) : ℚ) / ((max height target.2 : Nat) : ℚ)
  let dimension_score := (width_ratio + height_ratio) / 2
  let resolution_score : ℚ := min 1 (((width * height : Nat) : ℚ) / 1000000)
  (dimension_score + resolution_score) / 2

/-- Parsed JSON judgment returned by the external vision model in
`AdEvaluator.get_ai_evaluation`. -/
structure AIJudgment where
  visual_appeal : ℚ
  brand_alignment : ℚ
  platform_optimization : ℚ
  audience_relevance : ℚ
  cta_clarity : ℚ
  overall_rating : ℚ
  strengths : List String
  improvements : List String
  engagement_prediction : String
deriving DecidableEq

/-- Default judgment substituted by the `except` branch of
`AdEvaluator.get_ai_evaluation` (evaluator.py lines 230-243). -/
def default_ai_evaluation : AIJudgment :=
  ⟨7, 7, 7, 7, 7, 7, ["Professional appearance"],
   ["Could not analyze due to API limitation"], "medium"⟩

/-- Embedding of `AdEvaluator.get_ai_evaluation` (evaluator.py lines
162-243): the external call either yields a parsed judgment (`some`) or
fails in any way (`none`: exception, timeout, malformed JSON), in which case
the fixed default judgment is substituted and no exception escapes. -/
def get_ai_evaluation (external_result : Option AIJudgment) : AIJudgment :=
  external_result.getD default_ai_evaluation

/-- Intermediate metrics packaged into the report (the `detailed_analysis`
dict of evaluator.py lines 299-309). -/
structure DetailedAnalysis where
  color_analysis : ColorAnalysis
  composition_analysis : CompositionAnalysis
  text_analysis : TextAnalysis
  platform_score : ℚ
  ai_evaluation : AIJudgment
deriving DecidableEq

/-- Evaluation report, the `AdEvaluation` pydantic model of
`models/schemas.py`. -/
structure AdEvaluation where
  overall_score : ℚ
  visual_appeal : ℚ
  text_readability : ℚ
  brand_alignment : ℚ
  platform_optimization : ℚ
  engagement_prediction : ℚ
  suggestions : List String
  detailed_analysis : DetailedAnalysis
deriving DecidableEq

/-- Embedding of the scoring and suggestion logic of
`AdEvaluator.evaluate_ad` (evaluator.py lines 245-310) on an already loaded
image.  The target audience and brand name of the source only feed the
prompt of the external call and are absorbed into `ai_result`. -/
def evaluate_ad (img : RGBImage) (gray : GrayImage) (edge_count : Nat)
    (thirds_activity : ℚ) (contours : List Contour) (text_content : String)
    (platform : Platform) (ai_result : Option AIJudgment) : AdEvaluation :=
  let color_analysis := analyze_color_distribution img
  let composition_analysis := analyze_composition gray edge_count thirds_activity
  let text_analysis := analyze_text_readability text_content contours
  let platform_score := platform_optimization_score img.width img.height platform
  let ai_evaluation := get_ai_evaluation ai_result
  let visual_appeal := color_analysis.color_harmony * (3/10)
    + composition_analysis.balance_score * (4/10) + ai_evaluation.visual_appeal / 10 * (3/10)
  let text_readability := text_analysis.readability_score
  let brand_alignment := ai_evaluation.brand_alignment / 10
  let platform_optimization := platform_score
  let engagement_prediction := (visual_appeal + text_readability + brand_alignment
    + platform_optimization) / 4
  let overall_score := (visual_appeal + text_readability + brand_alignment
    + platform_optimization + engagement_prediction) / 5
  let suggestions :=
    (if visual_appeal < 7/10 then ["Improve visual composition and color harmony"] else [])
    ++ (if text_readability < 7/10 then ["Enhance text contrast and readability"] else [])
    ++ (if platform_optimization < 8/10 then
          ["Optimize dimensions for " ++ platform.value] else [])
    ++ (if brand_alignment < 7/10 then
          ["Better align visual elements with brand identity"] else [])
    ++ ai_evaluation.improvements
  ⟨overall_score, visual_appeal, text_readability, brand_alignment, platform_optimization,
   engagement_prediction, suggestions.take 5,
   ⟨color_analysis, composition_analysis, text_analysis, platform_score, ai_evaluation⟩⟩

/-- The six numeric fields of a report, in schema order. -/
def report_scores (e : AdEvaluation) : List ℚ :=
  [e.overall_score, e.visual_appeal, e.text_readability, e.brand_alignment,
   e.platform_optimization, e.engagement_prediction]

/-- Exceptions escaping the analysis stages of `evaluate_ad`:
`pil_open_error` is whatever `PIL.Image.open` raises on an unreadable path,
`cv2_error` the error `cv2.cvtColor` raises after `cv2.imread` returned
None.  The source defines no InvalidImage condition of its own. -/
inductive PyError
  | pil_open_error
  | cv2_error
deriving DecidableEq

/-- One image path as seen by the two imaging libraries: `pil = none` models
a path PIL cannot open, `cv2 = none` a path `cv2.imread` cannot decode. -/
structure ImageFile where
  pil : Option RGBImage
  cv2 : Option GrayImage
  edge_count : Nat
  thirds_activity : ℚ
  contours : List Contour

/-- Embedding of the whole `AdEvaluator.evaluate_ad` call including the
image loads performed inside the analysis helpers, in source order:
`analyze_color_distribution` opens the path with PIL first, then
`analyze_composition` reads it with cv2; no validation happens before
either load, and any load failure propagates the raw library exception. -/
def evaluate_ad_io (file : ImageFile) (text_content : String) (platform : Platform)
    (ai_result : Option AIJudgment) : Except PyError AdEvaluation :=
  match file.pil with
  | none => .error .pil_open_error
  | some img =>
    match file.cv2 with
    | none => .error .cv2_error
    | some gray =>
      .ok (evaluate_ad img gray file.edge_count file.thirds_activity file.contours
        text_content platform ai_result)

theorem np_var_nonneg (l : List ℚ) : 0 ≤ np_var l := by
  unfold np_var
  apply div_nonneg
  · apply List.sum_nonneg
    intro x hx
    obtain ⟨y, _, rfl⟩ := List.mem_map.mp hx
    positivity
  · exact_mod_cast Nat.zero_le _

theorem color_harmony_mem (img : RGBImage) :
    0 ≤ (analyze_color_distribution img).color_harmony ∧
    (analyze_color_distribution img).color_harmony ≤ 1 := by
  have hv := np_var_nonneg (channel_means img.pixels)
  constructor
  · exact le_max_left 0 _
  · apply max_le (by norm_num)
    have : 0 ≤ np_var (channel_means img.pixels) / 10000 := by positivity
    linarith

theorem clamp01_nonneg (x : ℚ) : 0 ≤ max 0 (min 1 x) := le_max_left 0 _

theorem clamp01_le_one (x : ℚ) : max 0 (min 1 x) ≤ 1 :=
  max_le zero_le_one (min_le_left 1 x)

theorem balance_score_mem (g : GrayImage) (edge_count : Nat) (thirds_activity : ℚ) :
    0 ≤ (analyze_composition g edge_count thirds_activity).balance_score ∧
    (analyze_composition g edge_count thirds_activity).balance_score ≤ 1 :=
  ⟨clamp01_nonneg _, clamp01_le_one _⟩

theorem contrast_ratio_of_mem (contours : List Contour)
    (hc : ∀ c ∈ contours, 0 ≤ c.contrast) :
    0 ≤ contrast_ratio_of contours ∧ contrast_ratio_of contours ≤ 1 := by
  unfold contrast_ratio_of
  by_cases hta : (contours.filter (fun c => 1000 < c.area)).length ≠ 0
  · simp only [if_pos hta]
    have hnn : (0 : ℚ) ≤
        (if (((contours.filter (fun c => 1000 < c.area)).filter
            (fun c => 0 < c.size)).map Contour.contrast).length ≠ 0 then
          (((contours.filter (fun c => 1000 < c.area)).filter
            (fun c => 0 < c.size)).map Contour.contrast).sum /
            ((((contours.filter (fun c => 1000 < c.area)).filter
              (fun c => 0 < c.size)).map Contour.contrast).length : ℚ)
        else 50) := by
      split_ifs
      · apply div_nonneg
        · apply List.sum_nonneg
          intro x hx
          obtain ⟨c, hcm, rfl⟩ := List.mem_map.mp hx
          exact hc c (List.mem_of_mem_filter (List.mem_of_mem_filter hcm))
        · exact_mod_cast Nat.zero_le _
      · norm_num
    constructor
    · exact le_min (by norm_num) (by positivity)
    · exact min_le_left 1 _
  · simp only [if_neg hta]
    constructor <;> norm_num

theorem text_readability_mem (text_content : String) (contours : List Contour)
    (hc : ∀ c ∈ contours, 0 ≤ c.contrast) :
    0 ≤ (analyze_text_readability text_content contours).readability_score ∧
    (analyze_text_readability text_content contours).readability_score ≤ 1 := by
  unfold analyze_text_readability
  by_cases ht : text_content.length = 0
  · rw [if_pos ht]
    constructor <;> norm_num
  · rw [if_neg ht]
    obtain ⟨h1, h2⟩ := contrast_ratio_of_mem contours hc
    have hl1 : 0 ≤ max 0 (1 - (text_content.length : ℚ) / 200) := le_max_left _ _
    have hl2 : max 0 (1 - (text_content.length : ℚ) / 200) ≤ 1 := by
      apply max_le (by norm_num)
      have : 0 ≤ (text_content.length : ℚ) / 200 := by positivity
      linarith
    constructor
    · show 0 ≤ (contrast_ratio_of contours + max 0 (1 - (text_content.length : ℚ) / 200)) / 2
      linarith
    · show (contrast_ratio_of contours + max 0 (1 - (text_content.length : ℚ) / 200)) / 2 ≤ 1
      linarith

theorem dim_ratio_mem (a b : Nat) (hb : 0 < b) :
    0 ≤ ((min a b : Nat) : ℚ) / ((max a b : Nat) : ℚ) ∧
    ((min a b : Nat) : ℚ) / ((max a b : Nat) : ℚ) ≤ 1 := by
  have hmaxpos : (0 : ℚ) < ((max a b : Nat) : ℚ) := by
    have : 0 < max a b := lt_of_lt_of_le hb (le_max_right a b)
    exact_mod_cast this
  constructor
  · positivity
  · rw [div_le_one hmaxpos]
    exact_mod_cast min_le_max

theorem platform_optimization_score_mem (w h : Nat) (p : Platform) :
    0 ≤ platform_optimization_score w h p ∧ platform_optimization_score w h p ≤ 1 := by
  have hdim : 0 < (PLATFORM_SPECS p).dimensions.1 ∧ 0 < (PLATFORM_SPECS p).dimensions.2 := by
    cases p <;> exact ⟨by decide, by decide⟩
  obtain ⟨hw1, hw2⟩ := dim_ratio_mem w (PLATFORM_SPECS p).dimensions.1 hdim.1
  obtain ⟨hh1, hh2⟩ := dim_ratio_mem h (PLATFORM_SPECS p).dimensions.2 hdim.2
  have hres1 : (0 : ℚ) ≤ min 1 (((w * h : Nat) : ℚ) / 1000000) :=
    le_min (by norm_num) (by positivity)
  have hres2 : min 1 (((w * h : Nat) : ℚ) / 1000000) ≤ 1 := min_le_left 1 _
  unfold platform_optimization_score
  constructor
  · show (0 : ℚ) ≤ ((((min w (PLATFORM_SPECS p).dimensions.1 : Nat) : ℚ)
        / ((max w (PLATFORM_SPECS p).dimensions.1 : Nat) : ℚ)
      + ((min h (PLATFORM_SPECS p).dimensions.2 : Nat) : ℚ)
        / ((max h (PLATFORM_SPECS p).dimensions.2 : Nat) : ℚ)) / 2
      + min 1 (((w * h : Nat) : ℚ) / 1000000)) / 2
    linarith
  · show ((((min w (PLATFORM_SPECS p).dimensions.1 : Nat) : ℚ)
        / ((max w (PLATFORM_SPECS p).dimensions.1 : Nat) : ℚ)
      + ((min h (PLATFORM_SPECS p).dimensions.2 : Nat) : ℚ)
        / ((max h (PLATFORM_SPECS p).dimensions.2 : Nat) : ℚ)) / 2
      + min 1 (((w * h : Nat) : ℚ) / 1000000)) / 2 ≤ 1
    linarith

/-- C3: if the external AI call fails in any way (modelled by `none`),
`evaluate_ad` still returns the complete report, identical to the one
computed from the fixed default judgment, whose five axis scores are all
7.0, whose strength list is the generic one, whose improvement list flags
that analysis could not be performed, and whose engagement prediction is
"medium". -/
theorem evaluate_ad_ai_failure_default (img : RGBImage) (gray : GrayImage)
    (edge_count : Nat) (thirds_activity : ℚ) (contours : List Contour)
    (text_content : String) (platform : Platform) :
    evaluate_ad img gray edge_count thirds_activity contours text_content platform none
      = evaluate_ad img gray edge_count thirds_activity contours text_content platform
          (some default_ai_evaluation) ∧
    (evaluate_ad img gray edge_count thirds_activity contours text_content platform
        none).detailed_analysis.ai_evaluation = default_ai_evaluation ∧
    default_ai_evaluation.visual_appeal = 7 ∧
    default_ai_evaluation.brand_alignment = 7 ∧
    default_ai_evaluation.platform_optimization = 7 ∧
    default_ai_evaluation.audience_relevance = 7 ∧
    default_ai_evaluation.cta_clarity = 7 ∧
    default_ai_evaluation.strengths = ["Professional appearance"] ∧
    default_ai_evaluation.improvements = ["Could not analyze due to API limitation"] ∧
    default_ai_evaluation.engagement_prediction = "medium" :=
  ⟨rfl, rfl, rfl, rfl, rfl, rfl, rfl, rfl, rfl, rfl⟩

/-- C5: whenever each of the five axis scores of the supplied AI judgment
lies in [0,10] and the contour contrast proxies are nonnegative (numpy
standard deviations always are), every numeric field of the report lies in
[0,1] and at most five suggestions are returned. -/
theorem evaluate_ad_scores_in_unit_interval (img : RGBImage) (gray : GrayImage)
    (edge_count : Nat) (thirds_activity : ℚ) (contours : List Contour)
    (text_content : String) (platform : Platform) (j : AIJudgment)
    (hva : 0 ≤ j.visual_appeal ∧ j.visual_appeal ≤ 10)
    (hba : 0 ≤ j.brand_alignment ∧ j.brand_alignment ≤ 10)
    (hpo : 0 ≤ j.platform_optimization ∧ j.platform_optimization ≤ 10)
    (har : 0 ≤ j.audience_relevance ∧ j.audience_relevance ≤ 10)
    (hcta : 0 ≤ j.cta_clarity ∧ j.cta_clarity ≤ 10)
    (hc : ∀ c ∈ contours, 0 ≤ c.contrast) :
    (∀ s ∈ report_scores (evaluate_ad img gray edge_count thirds_activity contours
        text_content platform (some j)), 0 ≤ s ∧ s ≤ 1) ∧
    (evaluate_ad img gray edge_count thirds_activity contours text_content platform
        (some j)).suggestions.length ≤ 5 := by
  have hharm := color_harmony_mem img
  have hbal := balance_score_mem gray edge_count thirds_activity
  have htext := text_readability_mem text_content contours hc
  have hplat := platform_optimization_score_mem img.width img.height platform
  have hVA : (evaluate_ad img gray edge_count thirds_activity contours text_content platform
      (some j)).visual_appeal
      = (analyze_color_distribution img).color_harmony * (3/10)
        + (analyze_composition gray edge_count thirds_activity).balance_score * (4/10)
        + j.visual_appeal / 10 * (3/10) := rfl
  have hTR : (evaluate_ad img gray edge_count thirds_activity contours text_content platform
      (some j)).text_readability
      = (analyze_text_readability text_content contours).readability_score := rfl
  have hBA : (evaluate_ad img gray edge_count thirds_activity contours text_content platform
      (some j)).brand_alignment = j.brand_alignment / 10 := rfl
  have hPO : (evaluate_ad img gray edge_count thirds_activity contours text_content platform
      (some j)).platform_optimization
      = platform_optimization_score img.width img.height platform := rfl
  have hEP : (evaluate_ad img gray edge_count thirds_activity contours text_content platform
      (some j)).engagement_prediction
      = ((evaluate_ad img gray edge_count thirds_activity contours text_content platform
          (some j)).visual_appeal
        + (evaluate_ad img gray edge_count thirds_activity contours text_content platform
          (some j)).text_readability
        + (evaluate_ad img gray edge_count thirds_activity contours text_content platform
          (some j)).brand_alignment
        + (evaluate_ad img gray edge_count thirds_activity contours text_content platform
          (some j)).platform_optimization) / 4 := rfl
  have hOS : (evaluate_ad img gray edge_count thirds_activity contours text_content platform
      (some j)).overall_score
      = ((evaluate_ad img gray edge_count thirds_activity contours text_content platform
          (some j)).visual_appeal
        + (evaluate_ad img gray edge_count thirds_activity contours text_content platform
          (some j)).text_readability
        + (evaluate_ad img gray edge_count thirds_activity contours text_content platform
          (some j)).brand_alignment
        + (evaluate_ad img gray edge_count thirds_activity contours text_content platform
          (some j)).platform_optimization
        + (evaluate_ad img gray edge_count thirds_activity contours text_content platform
          (some j)).engagement_prediction) / 5 := rfl
  have bVA : 0 ≤ (evaluate_ad img gray edge_count thirds_activity contours text_content
      platform (some j)).visual_appeal ∧
      (evaluate_ad img gray edge_count thirds_activity contours text_content platform
        (some j)).visual_appeal ≤ 1 := by
    rw [hVA]
    constructor
    · have := hharm.1
      have := hbal.1
      have := hva.1
      positivity
    · linarith [hharm.2, hbal.2, hva.2]
  have bTR : 0 ≤ (evaluate_ad img gray edge_count thirds_activity contours text_content
      platform (some j)).text_readability ∧
      (evaluate_ad img gray edge_count thirds_activity contours text_content platform
        (some j)).text_readability ≤ 1 := by
    rw [hTR]; exact htext
  have bBA : 0 ≤ (evaluate_ad img gray edge_count thirds_activity contours text_content
      platform (some j)).brand_alignment ∧
      (evaluate_ad img gray edge_count thirds_activity contours text_content platform
        (some j)).brand_alignment ≤ 1 := by
    rw [hBA]
    constructor
    · have := hba.1; positivity
    · linarith [hba.2]
  have bPO : 0 ≤ (evaluate_ad img gray edge_count thirds_activity contours text_content
      platform (some j)).platform_optimization ∧
      (evaluate_ad img gray edge_count thirds_activity contours text_content platform
        (some j)).platform_optimization ≤ 1 := by
    rw [hPO]; exact hplat
  have bEP : 0 ≤ (evaluate_ad img gray edge_count thirds_activity contours text_content
      platform (some j)).engagement_prediction ∧
      (evaluate_ad img gray edge_count thirds_activity contours text_content platform
        (some j)).engagement_prediction ≤ 1 := by
    rw [hEP]
    constructor
    · linarith [bVA.1, bTR.1, bBA.1, bPO.1]
    · linarith [bVA.2, bTR.2, bBA.2, bPO.2]
  have bOS : 0 ≤ (evaluate_ad img gray edge_count thirds_activity contours text_content
      platform (some j)).overall_score ∧
      (evaluate_ad img gray edge_count thirds_activity contours text_content platform
        (some j)).overall_score ≤ 1 := by
    rw [hOS]
    constructor
    · linarith [bVA.1, bTR.1, bBA.1, bPO.1, bEP.1]
    · linarith [bVA.2, bTR.2, bBA.2, bPO.2, bEP.2]
  constructor
  · intro s hs
    simp only [report_scores, List.mem_cons, List.not_mem_nil, or_false] at hs
    rcases hs with rfl | rfl | rfl | rfl | rfl | rfl
    · exact bOS
    · exact bVA
    · exact bTR
    · exact bBA
    · exact bPO
    · exact bEP
  · have hsg : (evaluate_ad img gray edge_count thirds_activity contours text_content
        platform (some j)).suggestions.length
        = (List.take 5
            ((if (evaluate_ad img gray edge_count thirds_activity contours text_content
                platform (some j)).visual_appeal < 7/10 then
                ["Improve visual composition and color harmony"] else [])
              ++ (if (evaluate_ad img gray edge_count thirds_activity contours text_content
                platform (some j)).text_readability < 7/10 then
                ["Enhance text contrast and readability"] else [])
              ++ (if (evaluate_ad img gray edge_count thirds_activity contours text_content
                platform (some j)).platform_optimization < 8/10 then
                ["Optimize dimensions for " ++ platform.value] else [])
              ++ (if (evaluate_ad img gray edge_count thirds_activity contours text_content
                platform (some j)).brand_alignment < 7/10 then
                ["Better align visual elements with brand identity"] else [])
              ++ j.improvements)).length := rfl
    rw [hsg]
    exact le_trans (Nat.le_of_eq (List.length_take 5 _)) (min_le_left 5 _)

theorem seven_mem_ten : (0 : ℚ) ≤ 7 ∧ (7 : ℚ) ≤ 10 := by constructor <;> norm_num

theorem no_contours_nonneg : ∀ c ∈ ([] : List Contour), 0 ≤ c.contrast := by
  intro c hmem
  exact absurd hmem (List.not_mem_nil c)

/-- Witness for C5 at a concrete 1×1 image and the default judgment. -/
theorem evaluate_ad_scores_witness :
    ((0 : ℚ) ≤ 7 ∧ (7 : ℚ) ≤ 10) ∧
    (∀ s ∈ report_scores (evaluate_ad ⟨1, 1, [(0, 0, 0)]⟩ ⟨[[0]]⟩ 0 0 [] ""
        Platform.instagram (some default_ai_evaluation)), 0 ≤ s ∧ s ≤ 1) ∧
    (evaluate_ad ⟨1, 1, [(0, 0, 0)]⟩ ⟨[[0]]⟩ 0 0 [] "" Platform.instagram
        (some default_ai_evaluation)).suggestions.length ≤ 5 :=
  ⟨seven_mem_ten,
    evaluate_ad_scores_in_unit_interval ⟨1, 1, [(0, 0, 0)]⟩ ⟨[[0]]⟩ 0 0 [] ""
      Platform.instagram default_ai_evaluation seven_mem_ten seven_mem_ten seven_mem_ten
      seven_mem_ten seven_mem_ten no_contours_nonneg⟩

/-- C9 counterexample: with the nonempty text "Buy Now" and no candidate
region of area above 1000, the code returns the fixed fallback contrast 0.7
rather than the claimed 50/100 = 0.5, and the readability score is built
from 0.7. -/
theorem no_region_contrast_is_seven_tenths :
    (analyze_text_readability "Buy Now" []).contrast_ratio = 7/10 ∧
    (analyze_text_readability "Buy Now" []).readability_score
      = (7/10 + max 0 (1 - (7 : ℚ) / 200)) / 2 ∧
    (7 : ℚ) / 10 ≠ 1/2 := by
  refine ⟨rfl, rfl, by norm_num⟩

/-- C9 amended: for nonempty text, when no candidate region of area above
1000 survives the filter the contrast ratio defaults to 0.7 (not 0.5) and
the readability score is (0.7 + length_score)/2; the 50-based default 0.5
arises only in the other branch, when candidate regions exist but every one
of them has an empty pixel crop. -/
theorem text_readability_default_branches (text_content : String) (contours : List Contour)
    (ht : text_content.length ≠ 0) :
    ((contours.filter (fun c => 1000 < c.area)).length = 0 →
      (analyze_text_readability text_content contours).contrast_ratio = 7/10 ∧
      (analyze_text_readability text_content contours).readability_score
        = (7/10 + max 0 (1 - (text_content.length : ℚ) / 200)) / 2) ∧
    ((contours.filter (fun c => 1000 < c.area)).length ≠ 0 →
      (∀ c ∈ contours, c.size = 0) →
      (analyze_text_readability text_content contours).contrast_ratio = 1/2) := by
  have hproj : (analyze_text_readability text_content contours).contrast_ratio
      = contrast_ratio_of contours := by
    unfold analyze_text_readability
    rw [if_neg ht]
  have hproj2 : (analyze_text_readability text_content contours).readability_score
      = (contrast_ratio_of contours + max 0 (1 - (text_content.length : ℚ) / 200)) / 2 := by
    unfold analyze_text_readability
    rw [if_neg ht]
  constructor
  · intro hta
    have hcr : contrast_ratio_of contours = 7/10 := by
      unfold contrast_ratio_of
      rw [if_neg (not_not.mpr hta)]
    exact ⟨by rw [hproj, hcr], by rw [hproj2, hcr]⟩
  · intro hta hsize
    have hfil : (contours.filter (fun c => 1000 < c.area)).filter (fun c => 0 < c.size)
        = [] := by
      apply List.filter_eq_nil_iff.mpr
      intro c hcm
      have hmem : c ∈ contours := List.mem_of_mem_filter hcm
      simp [hsize c hmem]
    have hcr : contrast_ratio_of contours = 1/2 := by
      unfold contrast_ratio_of
      rw [if_pos hta, hfil]
      norm_num
    rw [hproj, hcr]

theorem hi_text_nonempty : "Hi".length ≠ 0 := by decide

/-- Witness for the amended C9 at the concrete text "Hi" and no contours. -/
theorem text_readability_default_branches_witness :
    "Hi".length ≠ 0 ∧
    ((([] : List Contour).filter (fun c => 1000 < c.area)).length = 0 →
      (analyze_text_readability "Hi" []).contrast_ratio = 7/10 ∧
      (analyze_text_readability "Hi" []).readability_score
        = (7/10 + max 0 (1 - ("Hi".length : ℚ) / 200)) / 2) :=
  ⟨hi_text_nonempty, (text_readability_default_branches "Hi" [] hi_text_nonempty).1⟩

/-- C10 counterexample: a file that PIL can open but cv2 cannot decode makes
`evaluate_ad` die with the raw cv2 error raised inside the second analysis
stage; the first analysis stage (color distribution) has already run on the
PIL view by then, and no distinct InvalidImage condition exists anywhere in
the call — contradicting the claim of a fail-fast InvalidImage rejection
before any analysis. -/
theorem evaluate_ad_no_invalid_image_check :
    evaluate_ad_io ⟨some ⟨1, 1, [(10, 20, 30)]⟩, none, 0, 0, []⟩ "Hi" Platform.instagram none
      = Except.error PyError.cv2_error ∧
    analyze_color_distribution ⟨1, 1, [(10, 20, 30)]⟩
      = ⟨max 0 (1 - np_var (channel_means [(10, 20, 30)]) / 10000),
         (channel_means [(10, 20, 30)]).sum / 3⟩ :=
  ⟨rfl, rfl⟩

/-- C10 amended: `evaluate_ad` performs no input validation of its own: a
path PIL cannot open propagates the PIL exception from inside the first
analysis stage, and a path PIL can read but cv2 cannot fails only inside the
second analysis stage with the raw cv2 error, after color analysis has
already run; no distinct InvalidImage condition is ever produced. -/
theorem evaluate_ad_error_stages (file : ImageFile) (text_content : String)
    (platform : Platform) (ai_result : Option AIJudgment) :
    (file.pil = none →
      evaluate_ad_io file text_content platform ai_result
        = Except.error PyError.pil_open_error) ∧
    (∀ img, file.pil = some img → file.cv2 = none →
      evaluate_ad_io file text_content platform ai_result
        = Except.error PyError.cv2_error) ∧
    (∀ img gray, file.pil = some img → file.cv2 = some gray →
      evaluate_ad_io file text_content platform ai_result
        = Except.ok (evaluate_ad img gray file.edge_count file.thirds_activity
            file.contours text_content platform ai_result)) := by
  refine ⟨fun hpil => ?_, fun img hpil hcv => ?_, fun img gray hpil hcv => ?_⟩
  · unfold evaluate_ad_io
    rw [hpil]
  · unfold evaluate_ad_io
    rw [hpil, hcv]
  · unfold evaluate_ad_io
    rw [hpil, hcv]

/-- Witness for the amended C10 at two concrete files. -/
theorem evaluate_ad_error_stages_witness :
    ((⟨none, none, 0, 0, []⟩ : ImageFile).pil = none ∧
      evaluate_ad_io ⟨none, none, 0, 0, []⟩ "" Platform.tiktok none
        = Except.error PyError.pil_open_error) ∧
    ((⟨some ⟨1, 1, []⟩, none, 0, 0, []⟩ : ImageFile).pil = some ⟨1, 1, []⟩ ∧
      (⟨some ⟨1, 1, []⟩, none, 0, 0, []⟩ : ImageFile).cv2 = none ∧
      evaluate_ad_io ⟨some ⟨1, 1, []⟩, none, 0, 0, []⟩ "" Platform.tiktok none
        = Except.error PyError.cv2_error) :=
  ⟨⟨rfl, (evaluate_ad_error_stages ⟨none, none, 0, 0, []⟩ "" Platform.tiktok none).1 rfl⟩,
   ⟨rfl, rfl,
    (evaluate_ad_error_stages ⟨some ⟨1, 1, []⟩, none, 0, 0, []⟩ "" Platform.tiktok
      none).2.1 ⟨1, 1, []⟩ rfl rfl⟩⟩

/-- Overlay geometry and styling computed by
`AdImageGenerator.add_text_overlay` (ad_generator.py lines 97-140) before
drawing: font size, anchor position, padded background rectangle and the
resolved colors.  `text_width` and `text_height` are the PIL `textbbox` font
metrics, supplied as parameters. -/
structure TextOverlay where
  font_size : Nat
  x : Int
  y : Int
  rect_left : Int
  rect_top : Int
  rect_right : Int
  rect_bottom : Int
  bg_color : String
  text_color : String
deriving DecidableEq

/-- Embedding of `AdImageGenerator.add_text_overlay`: `none` models the
early return of the unchanged image on empty text; otherwise the overlay is
horizontally centered and vertically placed by platform identity —
lower quarter for instagram_story and tiktok, centered for all others. -/
def add_text_overlay (img_width img_height : Nat) (text : String)
    (brand_colors : List String) (platform : Platform)
    (text_width text_height : Nat) : Option TextOverlay :=
  if text.length = 0 then none
  else
    let font_size := max 40 (img_height / 20)
    let x : Int := ((img_width : Int) - (text_width : Int)).fdiv 2
    let y : Int :=
      if platform = Platform.instagram_story ∨ platform = Platform.tiktok then
        (img_height : Int) - ((img_height / 4 : Nat) : Int) - (text_height : Int)
      else ((img_height : Int) - (text_height : Int)).fdiv 2
    let padding : Int := 20
    let bg_color := if 1 < brand_colors.length then brand_colors.getD 1 "#FFFFFF"
      else "#FFFFFF"
    let text_color := if brand_colors.length ≠ 0 then brand_colors.getD 0 "#000000"
      else "#000000"
    some ⟨font_size, x, y, x - padding, y - padding,
      x + (text_width : Int) + padding, y + (text_height : Int) + padding,
      bg_color, text_color⟩

/-- C6 counterexample: pinterest frames are 1000×1500, which satisfies the
claimed geometric tallness test 1500 > 1.3·1000, yet `add_text_overlay`
vertically centers the text (y = 730 for a 40-pixel-tall text) instead of
placing it in the lower quarter (y = 1500 − 1500/4 − 40 = 1085): the branch
is keyed on platform identity, not on image geometry. -/
theorem overlay_pinterest_not_geometry :
    (add_text_overlay 1000 1500 "Buy Now" [] Platform.pinterest 200 40).map TextOverlay.y
      = some 730 ∧
    (1.3 : ℚ) * 1000 < 1500 ∧
    (730 : Int) ≠ 1500 - 1500 / 4 - 40 := by
  refine ⟨rfl, by norm_num, by decide⟩

/-- C6 amended: the vertical placement of `add_text_overlay` is keyed on
platform identity, not derived from image geometry: for instagram_story and
tiktok the text sits in the lower quarter at y = height − height//4 −
text_height, and for every other platform it is vertically centered at
y = (height − text_height)//2, regardless of whether height exceeds
1.3 × width; horizontal position is always centered. -/
theorem add_text_overlay_position (img_width img_height : Nat) (text : String)
    (brand_colors : List String) (platform : Platform) (text_width text_height : Nat)
    (ht : text.length ≠ 0) :
    ∃ o, add_text_overlay img_width img_height text brand_colors platform
        text_width text_height = some o ∧
      o.x = ((img_width : Int) - (text_width : Int)).fdiv 2 ∧
      o.y = (if platform = Platform.instagram_story ∨ platform = Platform.tiktok then
          (img_height : Int) - ((img_height / 4 : Nat) : Int) - (text_height : Int)
        else ((img_height : Int) - (text_height : Int)).fdiv 2) := by
  unfold add_text_overlay
  rw [if_neg ht]
  exact ⟨_, rfl, rfl, rfl⟩

/-- Witness for the amended C6 at a concrete tiktok overlay. -/
theorem add_text_overlay_position_witness :
    "Hi".length ≠ 0 ∧
    ∃ o, add_text_overlay 1080 1920 "Hi" [] Platform.tiktok 100 40 = some o ∧
      o.x = ((1080 : Int) - (100 : Int)).fdiv 2 ∧
      o.y = (if Platform.tiktok = Platform.instagram_story ∨
          Platform.tiktok = Platform.tiktok then
          (1920 : Int) - ((1920 / 4 : Nat) : Int) - (40 : Int)
        else ((1920 : Int) - (40 : Int)).fdiv 2) :=
  ⟨hi_text_nonempty,
    add_text_overlay_position 1080 1920 "Hi" [] Platform.tiktok 100 40 hi_text_nonempty⟩

/-- One PIL enhancement or filter step applied to an image. -/
inductive Enhancement
  | saturation (factor : ℚ)
  | brightness (factor : ℚ)
  | contrast (factor : ℚ)
  | unsharp_mask (radius percent threshold : Nat)
deriving DecidableEq

/-- Ordered enhancement steps applied by
`AdImageGenerator.optimize_for_platform` (ad_generator.py lines 142-159):
saturation when the spec has a saturation_boost, then brightness when it has
a brightness_boost, then an unconditional 1.05 contrast boost. -/
def optimize_for_platform (platform : Platform) : List Enhancement :=
  (match (PLATFORM_SPECS platform).saturation_boost with
    | some f => [Enhancement.saturation f]
    | none => [])
  ++ (match (PLATFORM_SPECS platform).brightness_boost with
    | some f => [Enhancement.brightness f]
    | none => [])
  ++ [Enhancement.contrast (21/20)]

/-- Ordered enhancement steps applied by
`PlatformOptimizer.enhance_for_platform` (platform_optimizer.py lines
86-105): saturation only for tiktok (when its spec has the boost),
brightness only for pinterest (when its spec has the boost), then an
UnsharpMask(radius=1, percent=150, threshold=3) filter for instagram_story
and tiktok; no contrast adjustment for any platform. -/
def enhance_for_platform (platform : Platform) : List Enhancement :=
  (if platform = Platform.tiktok then
    match (PLATFORM_SPECS platform).saturation_boost with
    | some f => [Enhancement.saturation f]
    | none => []
  else [])
  ++ (if platform = Platform.pinterest then
    match (PLATFORM_SPECS platform).brightness_boost with
    | some f => [Enhancement.brightness f]
    | none => []
  else [])
  ++ (if platform = Platform.instagram_story ∨ platform = Platform.tiktok then
    [Enhancement.unsharp_mask 1 150 3]
  else [])

theorem not_contrast_saturation (q f : ℚ) :
    Enhancement.saturation q ≠ Enhancement.contrast f :=
  fun hcon => Enhancement.noConfusion hcon

theorem not_contrast_brightness (q f : ℚ) :
    Enhancement.brightness q ≠ Enhancement.contrast f :=
  fun hcon => Enhancement.noConfusion hcon

theorem not_contrast_unsharp (r pe t : Nat) (f : ℚ) :
    Enhancement.unsharp_mask r pe t ≠ Enhancement.contrast f :=
  fun hcon => Enhancement.noConfusion hcon

/-- C8 counterexample: `PlatformOptimizer.enhance_for_platform` applies no
contrast boost — for instagram its enhancement list is empty — contradicting
the claim that the platform enhancement operation ends with an unconditional
+5% contrast boost for every platform. -/
theorem enhance_for_platform_no_contrast :
    enhance_for_platform Platform.instagram = [] ∧
    Enhancement.contrast (21/20) ∉ enhance_for_platform Platform.instagram := by
  refine ⟨rfl, ?_⟩
  intro hmem
  exact absurd hmem (List.not_mem_nil _)

/-- C8 amended: `AdImageGenerator.optimize_for_platform` does apply, in
order, saturation when configured, then brightness when configured, then a
single unconditional +5% contrast boost as its final step; but
`PlatformOptimizer.enhance_for_platform` applies no contrast boost for any
platform — its platform-conditional steps end with an UnsharpMask sharpen
for story/tiktok instead. -/
theorem platform_enhancement_order (p : Platform) :
    (optimize_for_platform p).getLast? = some (Enhancement.contrast (21/20)) ∧
    (∀ e ∈ (optimize_for_platform p).dropLast, ∀ f : ℚ, e ≠ Enhancement.contrast f) ∧
    (∀ e ∈ enhance_for_platform p, ∀ f : ℚ, e ≠ Enhancement.contrast f) := by
  cases p
  case instagram =>
    refine ⟨rfl, ?_, ?_⟩
    · intro e he f
      exact absurd he (List.not_mem_nil e)
    · intro e he f
      exact absurd he (List.not_mem_nil e)
  case instagram_story =>
    refine ⟨rfl, ?_, ?_⟩
    · intro e he f
      exact absurd he (List.not_mem_nil e)
    · intro e he f
      have hv : enhance_for_platform Platform.instagram_story
          = [Enhancement.unsharp_mask 1 150 3] := rfl
      rw [hv] at he
      have he2 : e = Enhancement.unsharp_mask 1 150 3 := by simpa using he
      rw [he2]
      exact not_contrast_unsharp 1 150 3 f
  case tiktok =>
    refine ⟨rfl, ?_, ?_⟩
    · intro e he f
      have hd : (optimize_for_platform Platform.tiktok).dropLast
          = [Enhancement.saturation (6/5)] := rfl
      rw [hd] at he
      have he2 : e = Enhancement.saturation (6/5) := by simpa using he
      rw [he2]
      exact not_contrast_saturation _ f
    · intro e he f
      have hv : enhance_for_platform Platform.tiktok
          = [Enhancement.saturation (6/5), Enhancement.unsharp_mask 1 150 3] := rfl
      rw [hv] at he
      rcases List.mem_cons.mp he with rfl | he2
      · exact not_contrast_saturation _ f
      · have he3 : e = Enhancement.unsharp_mask 1 150 3 := by simpa using he2
        rw [he3]
        exact not_contrast_unsharp 1 150 3 f
  case facebook =>
    refine ⟨rfl, ?_, ?_⟩
    · intro e he f
      exact absurd he (List.not_mem_nil e)
    · intro e he f
      exact absurd he (List.not_mem_nil e)
  case pinterest =>
    refine ⟨rfl, ?_, ?_⟩
    · intro e he f
      have hd : (optimize_for_platform Platform.pinterest).dropLast
          = [Enhancement.brightness (11/10)] := rfl
      rw [hd] at he
      have he2 : e = Enhancement.brightness (11/10) := by simpa using he
      rw [he2]
      exact not_contrast_brightness _ f
    · intro e he f
      have hv : enhance_for_platform Platform.pinterest
          = [Enhancement.brightness (11/10)] := rfl
      rw [hv] at he
      have he2 : e = Enhancement.brightness (11/10) := by simpa using he
      rw [he2]
      exact not_contrast_brightness _ f
